import Mathlib

/-!
A shallow embedding of `src/net/SslSocket.hpp` (class `SslStreamSocket`),
the TLS session adapter of the repository: the handshake driver
(`doHandshake`), the status classifier (`handleSslState`), the read/write
entry points (`readIncomingData`, `writeOutgoingData`, `readData`,
`writeData`), the readiness-interest query (`getPollEvents`) and the
shutdown sequencing (`shutdown`).

The OpenSSL engine is external: each call into it is modelled by inputs
(the raw return code, the `SSL_get_error` classification, `errno`, the
`ERR_get_error` queue head and its formatted text).  C++ exceptions
(`throw std::runtime_error`) are modelled with `Except`; a failed
`assert` and a non-terminating retry loop are modelled with `Option.none`.
The mutable fields `_sslWantsTo` and `_doHandshake` are passed as explicit
state.
-/

namespace SslSocket

/-- OpenSSL status code (value of `SSL_ERROR_ZERO_RETURN`). -/
def SSL_ERROR_ZERO_RETURN : Int := 6

/-- OpenSSL status code (value of `SSL_ERROR_WANT_READ`). -/
def SSL_ERROR_WANT_READ : Int := 2

/-- OpenSSL status code (value of `SSL_ERROR_WANT_WRITE`). -/
def SSL_ERROR_WANT_WRITE : Int := 3

/-- OpenSSL status code (value of `SSL_ERROR_WANT_CONNECT`). -/
def SSL_ERROR_WANT_CONNECT : Int := 7

/-- OpenSSL status code (value of `SSL_ERROR_WANT_ACCEPT`). -/
def SSL_ERROR_WANT_ACCEPT : Int := 8

/-- OpenSSL status code (value of `SSL_ERROR_WANT_X509_LOOKUP`). -/
def SSL_ERROR_WANT_X509_LOOKUP : Int := 4

/-- OpenSSL status code (value of `SSL_ERROR_SYSCALL`). -/
def SSL_ERROR_SYSCALL : Int := 5

/-- OpenSSL status code (value of `SSL_ERROR_SSL`), an example of a code
the classifier's `switch` has no case for, so it lands in `default`. -/
def SSL_ERROR_SSL : Int := 1

/-- POSIX `EINTR` (interrupted system call), as on Linux. -/
def EINTR : Int := 4

/-- `POLLIN` poll event bit, as on Linux. -/
def POLLIN : Int := 1

/-- `POLLOUT` poll event bit, as on Linux. -/
def POLLOUT : Int := 4

/-- `enum class SslWantsTo` of `SslStreamSocket`: the possible next I/O
operation that SSL wants to do. -/
inductive SslWantsTo
  | Neither
  | Read
  | Write
deriving DecidableEq, Repr

/-- The exceptions `handleSslState` can throw (`std::runtime_error`). -/
inductive SslFault
  /-- thrown with text "SSL Socket closed unexpectedly." -/
  | closedUnexpectedly
  /-- thrown with text "SSL BIO reported error [rc]." -/
  | bioReportedError (rc : Int)
  /-- thrown with the `ERR_error_string_n` formatting of the queued error -/
  | diagnostic (msg : String)
deriving DecidableEq, Repr

/-- The engine-side observations one classification call makes:
`sslError` is what `SSL_get_error(_ssl, rc)` returns, `errnoVal` the
value of `errno` at that point, `bioError` what `ERR_get_error()` pops
(0 when the queue is empty), and `bioText` the `ERR_error_string_n`
rendering of `bioError`. -/
structure EngineStatus where
  sslError : Int
  errnoVal : Int
  bioError : Int
  bioText : String
deriving DecidableEq, Repr

/-- The mutable per-session state of `SslStreamSocket`: the `_sslWantsTo`
and `_doHandshake` fields. -/
structure SessionState where
  _sslWantsTo : SslWantsTo
  _doHandshake : Bool
deriving DecidableEq, Repr

/-- The constructor initializes `_sslWantsTo(SslWantsTo::Neither)` and
`_doHandshake(true)`. -/
def initialSessionState : SessionState :=
  { _sslWantsTo := SslWantsTo.Neither, _doHandshake := true }

/-- `SslStreamSocket::handleSslState(const int rc)`: the status
classifier.  Takes the engine observations `st`, the current
`_sslWantsTo` value `w` and the raw return code `rc`; returns either a
thrown fault, or the returned `int` paired with the new `_sslWantsTo`
(a throwing path never mutates `_sslWantsTo`, and the thrown fault
aborts the calling operation).  The `SSL_ERROR_SYSCALL` case with
`errno == 0` falls through into `default`, exactly as the C++ `switch`
does. -/
def handleSslState (st : EngineStatus) (w : SslWantsTo) (rc : Int) :
    Except SslFault (Int × SslWantsTo) :=
  if rc > 0 then
    -- Success: Reset so we can do either.
    Except.ok (rc, SslWantsTo.Neither)
  else if st.sslError = SSL_ERROR_ZERO_RETURN then
    -- Shutdown complete, we're disconnected.
    Except.ok (0, w)
  else if st.sslError = SSL_ERROR_WANT_READ then
    Except.ok (rc, SslWantsTo.Read)
  else if st.sslError = SSL_ERROR_WANT_WRITE then
    Except.ok (rc, SslWantsTo.Write)
  else if st.sslError = SSL_ERROR_WANT_CONNECT ∨ st.sslError = SSL_ERROR_WANT_ACCEPT ∨
      st.sslError = SSL_ERROR_WANT_X509_LOOKUP then
    -- Unexpected.
    Except.ok (rc, w)
  else if st.sslError = SSL_ERROR_SYSCALL ∧ st.errnoVal ≠ 0 then
    -- Posix API error, let the caller handle.
    Except.ok (rc, w)
  else
    -- default: the error is coming from BIO.
    if st.bioError = 0 then
      if rc = 0 then
        -- Socket closed.
        Except.ok (0, w)
      else if rc = -1 then
        Except.error SslFault.closedUnexpectedly
      else
        Except.error (SslFault.bioReportedError rc)
    else
      Except.error (SslFault.diagnostic st.bioText)

/-- The `do { rc = SSL_do_handshake(_ssl); } while (rc < 0 && errno == EINTR)`
loop of `doHandshake`: each list element is one attempt's
(return code, `errno`) pair; the loop's value is the first attempt not
retried, `none` if every listed attempt is retried (the loop would keep
spinning). -/
def eintrLoop : List (Int × Int) → Option Int
  | [] => none
  | (rc, e) :: rest => if rc < 0 ∧ e = EINTR then eintrLoop rest else some rc

/-- `SslStreamSocket::doHandshake()`.  When `_doHandshake` is set it runs
the `SSL_do_handshake` retry loop, classifies a non-positive result with
`handleSslState`, and on a still non-positive classified value returns
the C++ `(rc != 0)` converted to `int` (1 or 0) without clearing
`_doHandshake`; otherwise it clears `_doHandshake` and returns 1.
`none` models a diverging retry loop; `Except.error` a propagated
classifier exception (state unchanged at the throw). -/
def doHandshake (env : EngineStatus) (attempts : List (Int × Int)) (s : SessionState) :
    Option (Except SslFault (Int × SessionState)) :=
  if s._doHandshake then
    match eintrLoop attempts with
    | none => none
    | some rc =>
      if rc ≤ 0 then
        match handleSslState env s._sslWantsTo rc with
        | Except.error f => some (Except.error f)
        | Except.ok (rc2, w) =>
          if rc2 ≤ 0 then
            some (Except.ok ((if rc2 ≠ 0 then 1 else 0),
              { s with _sslWantsTo := w }))
          else
            some (Except.ok (1, { _sslWantsTo := w, _doHandshake := false }))
      else
        some (Except.ok (1, { s with _doHandshake := false }))
  else
    -- Handshake complete.
    some (Except.ok (1, s))

/-- How a call to `readIncomingData` ends: either it returns early with a
`bool` (before any engine read), or it delegates to
`StreamSocket::readIncomingData()`, the base read path, which dispatches
through the virtual `readData` to `SSL_read`. -/
inductive ReadResult
  | earlyReturn (keepAlive : Bool)
  | baseReadPath
deriving DecidableEq, Repr

/-- `SslStreamSocket::readIncomingData()`: runs `doHandshake`; on a
non-positive result returns `(rc != 0)` early, otherwise falls through
to the base implementation. -/
def readIncomingData (env : EngineStatus) (attempts : List (Int × Int)) (s : SessionState) :
    Option (Except SslFault (ReadResult × SessionState)) :=
  match doHandshake env attempts s with
  | none => none
  | some (Except.error f) => some (Except.error f)
  | some (Except.ok (rc, s1)) =>
    if rc ≤ 0 then
      some (Except.ok (ReadResult.earlyReturn (rc != 0), s1))
    else
      some (Except.ok (ReadResult.baseReadPath, s1))

/-- How a call to `writeOutgoingData` ends: a bare early `return`, or
delegation to `StreamSocket::writeOutgoingData()`. -/
inductive WriteResult
  | earlyReturn
  | baseWritePath
deriving DecidableEq, Repr

/-- `SslStreamSocket::writeOutgoingData()`: runs `doHandshake`; on a
non-positive result returns early, otherwise falls through to the base
implementation. -/
def writeOutgoingData (env : EngineStatus) (attempts : List (Int × Int)) (s : SessionState) :
    Option (Except SslFault (WriteResult × SessionState)) :=
  match doHandshake env attempts s with
  | none => none
  | some (Except.error f) => some (Except.error f)
  | some (Except.ok (rc, s1)) =>
    if rc ≤ 0 then
      some (Except.ok (WriteResult.earlyReturn, s1))
    else
      some (Except.ok (WriteResult.baseWritePath, s1))

/-- `SslStreamSocket::readData(char* buf, int len)`:
`handleSslState(SSL_read(_ssl, buf, len))`.  `engineRc` is the
`SSL_read` return value. -/
def readData (env : EngineStatus) (engineRc : Int) (w : SslWantsTo) :
    Except SslFault (Int × SslWantsTo) :=
  handleSslState env w engineRc

/-- `SslStreamSocket::writeData(const char* buf, const int len)`:
`assert(len > 0)` then `handleSslState(SSL_write(_ssl, buf, len))`.
`none` models the assertion firing, which aborts before `SSL_write` is
ever invoked; `engineRc` is the `SSL_write` return value when it is. -/
def writeData (env : EngineStatus) (engineRc : Int) (len : Int) (w : SslWantsTo) :
    Option (Except SslFault (Int × SslWantsTo)) :=
  if len > 0 then
    some (handleSslState env w engineRc)
  else
    none

/-- `SslStreamSocket::getPollEvents()`: `_sslWantsTo` overrides the base
transport's poll-event computation, whose value is the parameter
`basePollEvents` (`StreamSocket::getPollEvents()` is external to this
file's source). -/
def getPollEvents (basePollEvents : Int) (w : SslWantsTo) : Int :=
  if w = SslWantsTo.Read then
    -- Must read next before attempting to write.
    POLLIN
  else if w = SslWantsTo.Write then
    -- Must write next before attempting to read.
    POLLOUT
  else
    -- Do the default.
    basePollEvents

/-- `SslStreamSocket::shutdown()`: calls `SSL_shutdown` once, and once
more iff the first call returned 0.  `res n` is the result of the n-th
`SSL_shutdown` call on this session, `start` the index of the next call
to issue; the value is the index after the last call issued, so
`shutdown res start - start` is the number of close-notify attempts this
invocation makes. -/
def shutdown (res : Nat → Int) (start : Nat) : Nat :=
  if res start = 0 then
    -- Complete the bidirectional shutdown.
    start + 2
  else
    start + 1

/-- With a non-positive input code, the classifier never returns a
positive value: every `Except.ok` branch yields `0` or the input `rc`. -/
theorem handleSslState_nonpos (st : EngineStatus) (w : SslWantsTo) (rc : Int)
    (h : rc ≤ 0) :
    ∀ v w2, handleSslState st w rc = Except.ok (v, w2) → v ≤ 0 := by
  intro v w2 hv
  unfold handleSslState at hv
  rw [if_neg (by omega)] at hv
  split at hv
  · exact (by cases hv; omega)
  · split at hv
    · exact (by cases hv; omega)
    · split at hv
      · exact (by cases hv; omega)
      · split at hv
        · exact (by cases hv; omega)
        · split at hv
          · exact (by cases hv; omega)
          · split at hv
            · split at hv
              · exact (by cases hv; omega)
              · split at hv
                · cases hv
                · cases hv
            · cases hv

/-- Claim C1, evaluated at the failing input.  With the handshake still
pending (`_doHandshake = true`, `_sslWantsTo = Neither`) and a handshake
step that suspends (`SSL_do_handshake` returns -1, `SSL_get_error`
classifies it `SSL_ERROR_WANT_READ`), the read entry point does NOT
return a retry-later indication: `doHandshake`'s `return (rc != 0)`
turns the suspended -1 into 1, so `readIncomingData` falls through to
the base read path, which dispatches through the virtual `readData` to
`SSL_read` — contradicting the claim that `SSL_read` is never reached
while the handshake is incomplete. -/
theorem c1_read_suspend_reaches_base_path :
    readIncomingData
        { sslError := SSL_ERROR_WANT_READ, errnoVal := 0, bioError := 0, bioText := "" }
        [(-1, 0)] initialSessionState
      = some (Except.ok (ReadResult.baseReadPath,
          { _sslWantsTo := SslWantsTo.Read, _doHandshake := true })) := by
  rfl

/-- Claim C2 counterexample.  Starting from the initial state, an
operation classified `SSL_ERROR_WANT_READ` sets want-state to `Read`;
a following operation classified `SSL_ERROR_ZERO_RETURN` (clean
termination, not a need-input signal) leaves want-state at `Read`.  So
after that second classified operation want-state is `Read` although the
most recent operation did not signal need-input, refuting the claimed
"WantRead iff the most recent operation signaled need-input". -/
theorem c2_zero_return_keeps_stale_want_read :
    handleSslState
        { sslError := SSL_ERROR_WANT_READ, errnoVal := 0, bioError := 0, bioText := "" }
        SslWantsTo.Neither (-1)
      = Except.ok (-1, SslWantsTo.Read)
    ∧ handleSslState
        { sslError := SSL_ERROR_ZERO_RETURN, errnoVal := 0, bioError := 0, bioText := "" }
        SslWantsTo.Read 0
      = Except.ok (0, SslWantsTo.Read)
    ∧ SSL_ERROR_ZERO_RETURN ≠ SSL_ERROR_WANT_READ := by
  refine ⟨rfl, rfl, by decide⟩

/-- Claim C2 as amended.  A need-input signal sets want-state to
`Read` and returns the original non-positive code unchanged; a
need-output signal sets it to `Write` and returns the code unchanged; a
fully successful (positive) result resets it to `Neither`; every other
classified outcome that returns normally leaves want-state unchanged, so
the "iff the most recent operation" reading holds only for the most
recent direction-setting or fully successful outcome. -/
theorem c2_want_state_tracking (st : EngineStatus) (w : SslWantsTo) (rc : Int)
    (h : rc ≤ 0) :
    (st.sslError = SSL_ERROR_WANT_READ →
        handleSslState st w rc = Except.ok (rc, SslWantsTo.Read))
    ∧ (st.sslError = SSL_ERROR_WANT_WRITE →
        handleSslState st w rc = Except.ok (rc, SslWantsTo.Write))
    ∧ (∀ rc2, 0 < rc2 → handleSslState st w rc2 = Except.ok (rc2, SslWantsTo.Neither))
    ∧ (st.sslError ≠ SSL_ERROR_WANT_READ → st.sslError ≠ SSL_ERROR_WANT_WRITE →
        ∀ v w2, handleSslState st w rc = Except.ok (v, w2) → w2 = w) := by
  refine ⟨?_, ?_, ?_, ?_⟩
  · intro hs
    unfold handleSslState
    rw [if_neg (by omega), hs]
    simp [SSL_ERROR_WANT_READ, SSL_ERROR_ZERO_RETURN]
  · intro hs
    unfold handleSslState
    rw [if_neg (by omega), hs]
    simp [SSL_ERROR_WANT_WRITE, SSL_ERROR_ZERO_RETURN, SSL_ERROR_WANT_READ]
  · intro rc2 h2
    unfold handleSslState
    rw [if_pos h2]
  · intro hr hw v w2 hv
    unfold handleSslState at hv
    split_ifs at hv with h1 h2 h3 h4 h5 h6 h7
    all_goals first
      | omega
      | (cases hv; rfl)

/-- Witness for C2's amended theorem at a concrete input: a need-input
signal on return code -1 records `Read`. -/
theorem c2_want_state_tracking_witness :
    handleSslState
        { sslError := SSL_ERROR_WANT_READ, errnoVal := 0, bioError := 0, bioText := "" }
        SslWantsTo.Neither (-1)
      = Except.ok (-1, SslWantsTo.Read) :=
  (c2_want_state_tracking
      { sslError := SSL_ERROR_WANT_READ, errnoVal := 0, bioError := 0, bioText := "" }
      SslWantsTo.Neither (-1) (by decide)).1 rfl

/-- Claim C3: whatever the base transport's own poll-event computation
returns, `getPollEvents` yields exactly `POLLIN` when `_sslWantsTo` is
`Read` and exactly `POLLOUT` when it is `Write`, and delegates to the
base computation exactly when `_sslWantsTo` is `Neither`. -/
theorem c3_poll_interest_override (basePollEvents : Int) :
    getPollEvents basePollEvents SslWantsTo.Read = POLLIN
    ∧ getPollEvents basePollEvents SslWantsTo.Write = POLLOUT
    ∧ getPollEvents basePollEvents SslWantsTo.Neither = basePollEvents := by
  refine ⟨rfl, rfl, rfl⟩

/-- Claim C7: each `shutdown()` invocation issues at least one and at
most two close-notify attempts, issues the second attempt iff the first
`SSL_shutdown` returned 0, and a second invocation in direct succession
again issues at most two — never a third round within an invocation. -/
theorem c7_shutdown_bounded (res : Nat → Int) (start : Nat) :
    1 ≤ shutdown res start - start
    ∧ shutdown res start - start ≤ 2
    ∧ (shutdown res start - start = 2 ↔ res start = 0)
    ∧ shutdown res (shutdown res start) - shutdown res start ≤ 2 := by
  unfold shutdown
  by_cases h : res start = 0
  · rw [if_pos h]
    by_cases h2 : res (start + 2) = 0
    · rw [if_pos h2]
      refine ⟨by omega, by omega, by omega, by omega⟩
    · rw [if_neg h2]
      refine ⟨by omega, by omega, by omega, by omega⟩
  · rw [if_neg h]
    by_cases h2 : res (start + 1) = 0
    · rw [if_pos h2]
      refine ⟨by omega, by omega, ⟨by omega, fun hc => absurd hc h⟩, by omega⟩
    · rw [if_neg h2]
      refine ⟨by omega, by omega, ⟨by omega, fun hc => absurd hc h⟩, by omega⟩

/-- Claim C9: a zero-length write fails the `assert(len > 0)` and aborts
before `SSL_write` is ever invoked, whatever the engine would have
returned and whatever the current want-state — and since `writeData`
never consults `_doHandshake`, this holds regardless of handshake
state. -/
theorem c9_zero_length_write_rejected (env : EngineStatus) (engineRc : Int)
    (w : SslWantsTo) :
    writeData env engineRc 0 w = none := by
  simp [writeData]

/-- Claim C4: the handshake-done flag is monotonic.  Once `_doHandshake`
is clear (handshake done), `doHandshake` returns 1 with the state
untouched, without consulting the engine — every subsequent entry point
bypasses the driver; and the flag is cleared only by a handshake step
whose raw `SSL_do_handshake` result (after the EINTR retry loop) is
positive, the classifier never being able to produce a positive value
from a non-positive one.  No operation takes `_doHandshake` from clear
back to set. -/
theorem c4_handshake_flag_monotonic (env : EngineStatus)
    (attempts : List (Int × Int)) (s : SessionState) :
    (s._doHandshake = false → doHandshake env attempts s = some (Except.ok (1, s)))
    ∧ (∀ r s', doHandshake env attempts s = some (Except.ok (r, s')) →
        s'._doHandshake = false →
        s._doHandshake = false ∨ ∃ hrc, eintrLoop attempts = some hrc ∧ 0 < hrc) := by
  constructor
  · intro hdone
    simp [doHandshake, hdone]
  · intro r s' hr hs'
    by_cases hd : s._doHandshake = false
    · exact Or.inl hd
    · right
      rw [Bool.not_eq_false] at hd
      unfold doHandshake at hr
      rw [if_pos hd] at hr
      cases hloop : eintrLoop attempts with
      | none =>
        rw [hloop] at hr
        simp at hr
      | some hrc =>
        rw [hloop] at hr
        dsimp only at hr
        by_cases hpos : hrc ≤ 0
        · rw [if_pos hpos] at hr
          cases hcl : handleSslState env s._sslWantsTo hrc with
          | error f =>
            rw [hcl] at hr
            simp at hr
          | ok p =>
            obtain ⟨rc2, w⟩ := p
            rw [hcl] at hr
            dsimp only at hr
            have h2 : rc2 ≤ 0 :=
              handleSslState_nonpos env s._sslWantsTo hrc hpos rc2 w hcl
            rw [if_pos h2] at hr
            cases hr
            simp [hd] at hs'
        · exact ⟨hrc, rfl, by omega⟩

/-- Claim C5: when the classifier reaches the `default` branch — no
system error recorded (`SSL_ERROR_SYSCALL` with `errno == 0`) or an
error code none of the cases match — it consults the engine's
diagnostic queue: empty queue and raw result 0 yields the orderly-close
return 0; empty queue and raw result -1 throws the fatal "closed
unexpectedly" fault, never an orderly close; a non-empty queue throws a
fatal fault carrying the formatted diagnostic text. -/
theorem c5_default_branch_diagnostics (st : EngineStatus) (w : SslWantsTo)
    (rc : Int) (hrc : rc ≤ 0)
    (hsig : st.sslError = SSL_ERROR_SYSCALL ∧ st.errnoVal = 0 ∨
        (st.sslError ≠ SSL_ERROR_ZERO_RETURN ∧ st.sslError ≠ SSL_ERROR_WANT_READ ∧
         st.sslError ≠ SSL_ERROR_WANT_WRITE ∧ st.sslError ≠ SSL_ERROR_WANT_CONNECT ∧
         st.sslError ≠ SSL_ERROR_WANT_ACCEPT ∧ st.sslError ≠ SSL_ERROR_WANT_X509_LOOKUP ∧
         st.sslError ≠ SSL_ERROR_SYSCALL)) :
    (st.bioError = 0 → rc = 0 → handleSslState st w rc = Except.ok (0, w))
    ∧ (st.bioError = 0 → rc = -1 →
        handleSslState st w rc = Except.error SslFault.closedUnexpectedly)
    ∧ (st.bioError ≠ 0 →
        handleSslState st w rc = Except.error (SslFault.diagnostic st.bioText)) := by
  have hdefault : handleSslState st w rc =
      (if st.bioError = 0 then
        if rc = 0 then Except.ok (0, w)
        else if rc = -1 then Except.error SslFault.closedUnexpectedly
        else Except.error (SslFault.bioReportedError rc)
      else Except.error (SslFault.diagnostic st.bioText)) := by
    unfold handleSslState
    rw [if_neg (by omega)]
    rcases hsig with ⟨h5, h0⟩ | ⟨n1, n2, n3, n4, n5, n6, n7⟩
    · simp [h5, h0, SSL_ERROR_SYSCALL, SSL_ERROR_ZERO_RETURN, SSL_ERROR_WANT_READ,
        SSL_ERROR_WANT_WRITE, SSL_ERROR_WANT_CONNECT, SSL_ERROR_WANT_ACCEPT,
        SSL_ERROR_WANT_X509_LOOKUP]
    · simp [n1, n2, n3, n4, n5, n6, n7]
  refine ⟨?_, ?_, ?_⟩
  · intro hb h0
    rw [hdefault, if_pos hb, if_pos h0]
  · intro hb h1
    rw [hdefault, if_pos hb, if_neg (by omega), if_pos h1]
  · intro hb
    rw [hdefault, if_neg hb]

/-- Witness for C5 at a concrete input: `SSL_ERROR_SSL` with `errno` 0,
an empty diagnostic queue and raw result -1 throws the fatal
"closed unexpectedly" fault. -/
theorem c5_default_branch_diagnostics_witness :
    handleSslState
        { sslError := SSL_ERROR_SSL, errnoVal := 0, bioError := 0, bioText := "" }
        SslWantsTo.Neither (-1)
      = Except.error SslFault.closedUnexpectedly :=
  (c5_default_branch_diagnostics
      { sslError := SSL_ERROR_SSL, errnoVal := 0, bioError := 0, bioText := "" }
      SslWantsTo.Neither (-1) (by decide)
      (Or.inr (by refine ⟨by decide, by decide, by decide, by decide, by decide,
        by decide, by decide⟩))).2.1 rfl rfl

/-- Claim C6: an engine result classified `SSL_ERROR_SYSCALL` with a
non-zero recorded `errno` is returned to the caller unchanged — no
exception is thrown, the return code is the original one, and want-state
is untouched, leaving the system error code to the caller's raw-I/O
handling. -/
theorem c6_syscall_error_passthrough (st : EngineStatus) (w : SslWantsTo)
    (rc : Int) (hrc : rc ≤ 0) (hs : st.sslError = SSL_ERROR_SYSCALL)
    (he : st.errnoVal ≠ 0) :
    handleSslState st w rc = Except.ok (rc, w) := by
  unfold handleSslState
  rw [if_neg (by omega)]
  simp [hs, he, SSL_ERROR_SYSCALL, SSL_ERROR_ZERO_RETURN, SSL_ERROR_WANT_READ,
    SSL_ERROR_WANT_WRITE, SSL_ERROR_WANT_CONNECT, SSL_ERROR_WANT_ACCEPT,
    SSL_ERROR_WANT_X509_LOOKUP]

/-- Witness for C6 at a concrete input: a syscall error with `errno` 104
(connection reset) on raw result -1 is passed through unchanged. -/
theorem c6_syscall_error_passthrough_witness :
    handleSslState
        { sslError := SSL_ERROR_SYSCALL, errnoVal := 104, bioError := 0, bioText := "" }
        SslWantsTo.Neither (-1)
      = Except.ok (-1, SslWantsTo.Neither) :=
  c6_syscall_error_passthrough
    { sslError := SSL_ERROR_SYSCALL, errnoVal := 104, bioError := 0, bioText := "" }
    SslWantsTo.Neither (-1) (by decide) rfl (by decide)

/-- Claim C8: a positive engine result resets want-state to `Neither`
and is returned unchanged, and with want-state `Neither` the
poll-interest query falls back to the base transport's computation. -/
theorem c8_success_resets_want_state (st : EngineStatus) (w : SslWantsTo)
    (rc : Int) (basePollEvents : Int) (h : 0 < rc) :
    handleSslState st w rc = Except.ok (rc, SslWantsTo.Neither)
    ∧ getPollEvents basePollEvents SslWantsTo.Neither = basePollEvents := by
  constructor
  · unfold handleSslState
    rw [if_pos h]
  · rfl

/-- Witness for C8 at a concrete input: a 1-byte success from want-state
`Read` resets to `Neither`, and the query then returns the base value. -/
theorem c8_success_resets_want_state_witness :
    handleSslState
        { sslError := 0, errnoVal := 0, bioError := 0, bioText := "" }
        SslWantsTo.Read 1
      = Except.ok (1, SslWantsTo.Neither)
    ∧ getPollEvents 7 SslWantsTo.Neither = 7 :=
  c8_success_resets_want_state
    { sslError := 0, errnoVal := 0, bioError := 0, bioText := "" }
    SslWantsTo.Read 1 7 (by decide)

/-- Claim C10: the pass-through outcomes — a syscall-class error with
non-zero `errno`, and the connect/accept/X509-lookup continuation
signals — return the original code with want-state left exactly as it
was, so a stale `Read` or `Write` recorded earlier persists and keeps
overriding the poll-interest query. -/
theorem c10_passthrough_preserves_stale_want (st : EngineStatus)
    (w : SslWantsTo) (rc basePollEvents : Int) (hrc : rc ≤ 0)
    (hsig : st.sslError = SSL_ERROR_SYSCALL ∧ st.errnoVal ≠ 0 ∨
        st.sslError = SSL_ERROR_WANT_CONNECT ∨ st.sslError = SSL_ERROR_WANT_ACCEPT ∨
        st.sslError = SSL_ERROR_WANT_X509_LOOKUP) :
    handleSslState st w rc = Except.ok (rc, w)
    ∧ (w = SslWantsTo.Read → getPollEvents basePollEvents w = POLLIN)
    ∧ (w = SslWantsTo.Write → getPollEvents basePollEvents w = POLLOUT) := by
  refine ⟨?_, ?_, ?_⟩
  · unfold handleSslState
    rw [if_neg (by omega)]
    rcases hsig with ⟨h5, he⟩ | h7 | h8 | h4
    · simp [h5, he, SSL_ERROR_SYSCALL, SSL_ERROR_ZERO_RETURN, SSL_ERROR_WANT_READ,
        SSL_ERROR_WANT_WRITE, SSL_ERROR_WANT_CONNECT, SSL_ERROR_WANT_ACCEPT,
        SSL_ERROR_WANT_X509_LOOKUP]
    · simp [h7, SSL_ERROR_SYSCALL, SSL_ERROR_ZERO_RETURN, SSL_ERROR_WANT_READ,
        SSL_ERROR_WANT_WRITE, SSL_ERROR_WANT_CONNECT, SSL_ERROR_WANT_ACCEPT,
        SSL_ERROR_WANT_X509_LOOKUP]
    · simp [h8, SSL_ERROR_SYSCALL, SSL_ERROR_ZERO_RETURN, SSL_ERROR_WANT_READ,
        SSL_ERROR_WANT_WRITE, SSL_ERROR_WANT_CONNECT, SSL_ERROR_WANT_ACCEPT,
        SSL_ERROR_WANT_X509_LOOKUP]
    · simp [h4, SSL_ERROR_SYSCALL, SSL_ERROR_ZERO_RETURN, SSL_ERROR_WANT_READ,
        SSL_ERROR_WANT_WRITE, SSL_ERROR_WANT_CONNECT, SSL_ERROR_WANT_ACCEPT,
        SSL_ERROR_WANT_X509_LOOKUP]
  · intro hw
    rw [hw]
    rfl
  · intro hw
    rw [hw]
    rfl

/-- Witness for C10 at a concrete input: after an earlier operation left
want-state `Read`, a syscall error with `errno` 104 passes -1 through,
keeps want-state `Read`, and the poll query still returns `POLLIN`. -/
theorem c10_passthrough_preserves_stale_want_witness :
    handleSslState
        { sslError := SSL_ERROR_SYSCALL, errnoVal := 104, bioError := 0, bioText := "" }
        SslWantsTo.Read (-1)
      = Except.ok (-1, SslWantsTo.Read)
    ∧ (SslWantsTo.Read = SslWantsTo.Read → getPollEvents 0 SslWantsTo.Read = POLLIN)
    ∧ (SslWantsTo.Read = SslWantsTo.Write → getPollEvents 0 SslWantsTo.Read = POLLOUT) :=
  c10_passthrough_preserves_stale_want
    { sslError := SSL_ERROR_SYSCALL, errnoVal := 104, bioError := 0, bioText := "" }
    SslWantsTo.Read (-1) 0 (by decide) (Or.inl ⟨rfl, by decide⟩)

end SslSocket
